import Mathlib

/-!
Verification of the Denver waste-notification script (src/main.py).

The script is shallowly embedded as follows.

JSON values parsed from the configuration file or returned by the calendar
API are modelled by the inductive type `J`.  Python dictionary operations
(`dict.get`, `d[k]`, `d[k] = v`, `in`, iteration) are modelled by functions
returning `Except Unit` results, where `.error ()` models a raised Python
exception (AttributeError / TypeError / KeyError on a value of the wrong
shape).  Python truthiness of JSON values is modelled by `jTruthyV`.

Side effects are made explicit: the configuration file is a value of type
`Option J` (`none` = file absent, `some j` = file present with parsed
contents `j`); every outbound HTTP call is recorded as a `Request`; the
network is an oracle (`NetOracle`) fixing the outcome of each call;
`sys.exit(n)` and process termination are modelled by returning the exit
code.  Dates (`datetime.now()` and its derived strings, the weekday) are
parameters, since the script only ever compares them for equality.
Python `weekday()` numbering is kept: Monday = 0, Sunday = 6.
-/

/-- A JSON value, as produced by Python `json.load` / `response.json()`. -/
inductive J where
  | null
  | b (v : Bool)
  | n (v : Int)
  | s (v : String)
  | arr (elems : List J)
  | o (fields : List (String × J))

mutual

/-- Python structural equality `==` restricted to JSON values. -/
def jEq : J → J → Bool
  | J.null, J.null => true
  | J.b x, J.b y => x = y
  | J.n x, J.n y => x = y
  | J.s x, J.s y => x = y
  | J.arr x, J.arr y => jEqList x y
  | J.o x, J.o y => jEqFields x y
  | _, _ => false

def jEqList : List J → List J → Bool
  | [], [] => true
  | x :: xs, y :: ys => jEq x y && jEqList xs ys
  | _, _ => false

def jEqFields : List (String × J) → List (String × J) → Bool
  | [], [] => true
  | (k1, v1) :: xs, (k2, v2) :: ys => k1 = k2 && jEq v1 v2 && jEqFields xs ys
  | _, _ => false

end

/-- Python truthiness of a JSON value (`bool(v)`). -/
def jTruthyV : J → Bool
  | J.null => false
  | J.b v => v
  | J.n v => v ≠ 0
  | J.s v => v ≠ ""
  | J.arr l => !l.isEmpty
  | J.o f => !f.isEmpty

/-- Python truthiness of a value that may be `None` (absent key). -/
def jTruthyOpt : Option J → Bool
  | none => false
  | some v => jTruthyV v

/-- `d.get(k, default)`: defaulting lookup on a dict; raises (AttributeError)
on a non-dict value. -/
def dictGet : J → String → J → Except Unit J
  | J.o fs, k, d => .ok ((List.lookup k fs).getD d)
  | _, _, _ => .error ()

/-- `d.get(k)`: lookup on a dict returning `None` when absent; raises on a
non-dict value. -/
def dictGetOpt : J → String → Except Unit (Option J)
  | J.o fs, k => .ok (List.lookup k fs)
  | _, _ => .error ()

/-- Test whether the character list starting here begins with the literal. -/
def startsWithLit : List Char → List Char → Bool
  | [], _ => true
  | _ :: _, [] => false
  | l :: lt, c :: ct => l = c && startsWithLit lt ct

/-- Substring test: does the needle occur anywhere in the haystack? -/
def hasSubstr (needle : List Char) : List Char → Bool
  | [] => startsWithLit needle []
  | c :: rest => startsWithLit needle (c :: rest) || hasSubstr needle rest

/-- Python `k in d` for a string key `k`: key test on dicts, membership via
`==` on lists, substring test on strings; raises TypeError otherwise. -/
def pyContains (k : String) : J → Except Unit Bool
  | J.o fs => .ok ((List.lookup k fs).isSome)
  | J.arr l => .ok (l.any (fun e => jEq e (J.s k)))
  | J.s v => .ok (hasSubstr k.toList v.toList)
  | _ => .error ()

/-- Python `d[k]` for a string key: raises TypeError/KeyError except on a
dict holding the key. -/
def pyIndex : J → String → Except Unit J
  | J.o fs, k =>
    match List.lookup k fs with
    | some v => .ok v
    | none => .error ()
  | _, _ => .error ()

/-- Python iteration `for x in v`: lists yield elements, dicts yield their
keys, strings yield one-character strings; raises TypeError otherwise. -/
def pyIter : J → Except Unit (List J)
  | J.arr l => .ok l
  | J.o fs => .ok (fs.map (fun kv => J.s kv.1))
  | J.s v => .ok (v.toList.map (fun c => J.s (String.mk [c])))
  | _ => .error ()

/-- Python `v == t` where `t` is known to be a `str` and `v` may be `None`:
true exactly for the equal string. -/
def pyEqStr : Option J → String → Bool
  | some (J.s v), t => v = t
  | _, _ => false

/-- Python dict assignment `d[k] = v` on an association list: replaces the
value at an existing key in place, otherwise appends the new binding. -/
def setKey (fs : List (String × J)) (k : String) (v : J) : List (String × J) :=
  if (List.lookup k fs).isSome then
    fs.map (fun kv => if kv.1 = k then (kv.1, v) else kv)
  else
    fs ++ [(k, v)]

/-- `d[k] = v` on a JSON value: raises TypeError on non-dicts. -/
def pySetItem (j : J) (k : String) (v : J) : Except Unit J :=
  match j with
  | J.o fs => .ok (J.o (setKey fs k v))
  | _ => .error ()

/-- Pure path lookup into nested JSON objects (specification-side helper,
with no Python defaulting: `none` when any step is absent or not a dict). -/
def jPath : J → List String → Option J
  | j, [] => some j
  | J.o fs, k :: ks =>
    match List.lookup k fs with
    | some v => jPath v ks
    | none => none
  | _, _ :: _ => none

/-- The character class `[0-9A-F-]` of the place-id patterns. -/
def isIdChar (c : Char) : Bool :=
  (decide (Char.ofNat 48 ≤ c) && decide (c ≤ Char.ofNat 57)) ||
  (decide (Char.ofNat 65 ≤ c) && decide (c ≤ Char.ofNat 70)) ||
  c = Char.ofNat 45

/-- The character class `[0-9]`. -/
def isDigitChar (c : Char) : Bool :=
  decide (Char.ofNat 48 ≤ c) && decide (c ≤ Char.ofNat 57)

/-- The Python regex class `\s` (space, tab, newline, carriage return,
vertical tab, form feed). -/
def isPySpace (c : Char) : Bool :=
  c = Char.ofNat 32 || c = Char.ofNat 9 || c = Char.ofNat 10 ||
  c = Char.ofNat 13 || c = Char.ofNat 11 || c = Char.ofNat 12

/-- `re.search(lit ++ "([cls]+)", s)`: leftmost match of a literal followed
by one or more characters of a class disjoint from the literal's last
character; returns the (greedy, maximal) group.  Models the searches for
`places/([0-9A-F-]+)` and `services/([0-9]+)` in `extract_ids_from_curl`
(src/main.py lines 114-115). -/
def searchLitClass (lit : List Char) (cls : Char → Bool) : List Char → Option (List Char)
  | [] => none
  | c :: rest =>
    if startsWithLit lit (c :: rest) then
      match (c :: rest).drop lit.length with
      | [] => searchLitClass lit cls rest
      | a :: tail => if cls a then some (a :: tail.takeWhile cls) else searchLitClass lit cls rest
    else searchLitClass lit cls rest

/-- `re.search(r"X-Recollect-Place:\s*([0-9A-F-]+):([0-9]+)", s)`
(src/main.py line 118): leftmost match, returning the two groups.  The
quantifiers need no backtracking because the three character classes
involved are pairwise disjoint and none contains a colon. -/
def searchHeader : List Char → Option (List Char × List Char)
  | [] => none
  | c :: rest =>
    (if startsWithLit "X-Recollect-Place:".toList (c :: rest) then
      let afterLit := ((c :: rest).drop 18).dropWhile isPySpace
      let g1 := afterLit.takeWhile isIdChar
      match afterLit.dropWhile isIdChar with
      | Char.ofNat 58 :: afterColon =>
        let g2 := afterColon.takeWhile isDigitChar
        if !g1.isEmpty && !g2.isEmpty then some (g1, g2) else none
      | _ => none
    else none).orElse (fun _ => searchHeader rest)

/-- `extract_ids_from_curl` (src/main.py lines 110-139): URL patterns first,
then the `X-Recollect-Place` header as fallback for whichever identifier is
still missing; returns `(None, None)` unless both were found. -/
def extract_ids_from_curl (curl_command : String) : Option String × Option String :=
  let l := curl_command.toList
  let place_match := searchLitClass "places/".toList isIdChar l
  let service_match := searchLitClass "services/".toList isDigitChar l
  let header_match := searchHeader l
  let place_id : Option (List Char) :=
    match place_match, header_match with
    | some p, _ => some p
    | none, some (h1, _) => some h1
    | none, none => none
  let service_id : Option (List Char) :=
    match service_match, header_match with
    | some q, _ => some q
    | none, some (_, h2) => some h2
    | none, none => none
  match place_id, service_id with
  | some p, some q =>
    if !p.isEmpty && !q.isEmpty then (some (String.mk p), some (String.mk q))
    else (none, none)
  | _, _ => (none, none)

/-- The interactive read loop of `extract_ids` (src/main.py lines 147-154):
lines are consumed until the first blank line (one where `line.strip()` is
empty, i.e. all characters are whitespace) and joined with single spaces. -/
def read_curl_command (lines : List String) : String :=
  String.mk (List.intercalate [Char.ofNat 32]
    ((lines.takeWhile (fun l => !l.toList.all isPySpace)).map String.toList))

/-- The default configuration skeleton created by `extract_ids` when no
configuration file exists (src/main.py lines 168-174).  Note its
`recollect` section is empty, unlike the `load_config` default. -/
def extract_default_config : J :=
  J.o [("recollect", J.o []),
       ("notifications",
         J.o [("pushover", J.o [("enabled", J.b false), ("user_key", J.s ""),
                                ("api_token", J.s "")]),
              ("ntfy", J.o [("enabled", J.b false), ("topic", J.s "")])])]

/-- The file-updating tail of `extract_ids` (src/main.py lines 157-186),
given the already-extracted identifiers and the configuration-file state;
returns the resulting file state.  On extraction failure the file is left
untouched; the `except Exception` handler (lines 182-183) also leaves it
untouched when the loaded configuration is not a dict. -/
def extract_ids_update (ids : Option String × Option String) (file : Option J) : Option J :=
  match ids with
  | (some p, some q) =>
    let config := match file with
      | some c => c
      | none => extract_default_config
    match pySetItem config "recollect"
        (J.o [("place_id", J.s p), ("service_id", J.s q)]) with
    | .ok c2 => some c2
    | .error _ => file
  | _ => file

/-- `extract_ids` (src/main.py lines 141-186) as a state transformer on the
configuration file, also returning whether extraction succeeded (the branch
taken at line 157). -/
def extract_ids (lines : List String) (file : Option J) : Option J × Bool :=
  let ids := extract_ids_from_curl (read_curl_command lines)
  (extract_ids_update ids file, ids.1.isSome && ids.2.isSome)

/-- The chain `config.get("notifications", {}).get(b, {}).get("enabled",
False)` as it appears (three times per backend) in `load_config`
(src/main.py lines 83-84 and the equivalent re-reads). -/
def backend_flag_get (config : J) (b : String) : Except Unit J :=
  match dictGet config "notifications" (J.o []) with
  | .error e => .error e
  | .ok notifications =>
  match dictGet notifications b (J.o []) with
  | .error e => .error e
  | .ok backend => dictGet backend "enabled" (J.b false)

/-- The chain `config.get("notifications", {}).get(b, {}).get(k)` used by
the credential checks of `load_config` (src/main.py lines 87-88 and
94-95). -/
def backend_cred_get (config : J) (b k : String) : Except Unit (Option J) :=
  match dictGet config "notifications" (J.o []) with
  | .error e => .error e
  | .ok notifications =>
  match dictGet notifications b (J.o []) with
  | .error e => .error e
  | .ok backend => dictGetOpt backend k

/-- The notification-backend checks of `load_config` (src/main.py lines
82-103), the tail of its `try` block after the ReCollect identifier
checks.  The repeated `.get` chains of the source are factored through
`backend_flag_get` / `backend_cred_get`, which evaluate them exactly as
written. -/
def load_config_notif_checks (config : J) : Except Unit (Except Nat J) :=
  match backend_flag_get config "pushover" with
  | .error e => .error e
  | .ok poEnV =>
  let pushover_enabled := jTruthyV poEnV
  match backend_flag_get config "ntfy" with
  | .error e => .error e
  | .ok nfEnV =>
  let ntfy_enabled := jTruthyV nfEnV
  match
    (if pushover_enabled then
      match backend_cred_get config "pushover" "user_key" with
      | .error e => .error e
      | .ok uk =>
      match backend_cred_get config "pushover" "api_token" with
      | .error e => .error e
      | .ok tk =>
      if !jTruthyOpt uk || !jTruthyOpt tk then .ok true else .ok false
    else .ok false : Except Unit Bool) with
  | .error e => .error e
  | .ok exitPushover =>
  if exitPushover then .ok (.error 1) else
  match
    (if ntfy_enabled then
      match backend_cred_get config "ntfy" "topic" with
      | .error e => .error e
      | .ok tp =>
      if !jTruthyOpt tp then .ok true else .ok false
    else .ok false : Except Unit Bool) with
  | .error e => .error e
  | .ok exitNtfy =>
  if exitNtfy then .ok (.error 1) else
  if !pushover_enabled && !ntfy_enabled then .ok (.error 1) else
  .ok (.ok config)

/-- The body of `load_config` once the file exists and parses (src/main.py
lines 72-105), inside its `try` block.  The outer `Except Unit` layer is the
`except Exception` handler of lines 106-108; the inner `Except Nat J` is the
function outcome: `.error 1` for `sys.exit(1)`, `.ok config` for a normal
return.  Repeated `config.get(...)` chains are kept as in the source. -/
def load_config_checks (config : J) : Except Unit (Except Nat J) :=
  match dictGet config "recollect" (J.o []) with
  | .error e => .error e
  | .ok rc1 =>
  match dictGetOpt rc1 "place_id" with
  | .error e => .error e
  | .ok pid =>
  if !jTruthyOpt pid then .ok (.error 1) else
  match dictGet config "recollect" (J.o []) with
  | .error e => .error e
  | .ok rc2 =>
  match dictGetOpt rc2 "service_id" with
  | .error e => .error e
  | .ok sid =>
  if !jTruthyOpt sid then .ok (.error 1) else
  load_config_notif_checks config

/-- `load_config` (src/main.py lines 41-108) on the configuration-file
state.  An absent file is the first-run path (default skeleton written,
`sys.exit(1)`); a caught exception while loading or checking also exits
with code 1.  The written default skeleton is not modelled, since
`load_config` never returns on that path. -/
def load_config (file : Option J) : Except Nat J :=
  match file with
  | none => .error 1
  | some config =>
    match load_config_checks config with
    | .ok r => r
    | .error _ => .error 1

/-- `validate_notification_settings` (src/main.py lines 300-318).  The
Python test `pushover.get("enabled") is True` is an identity test against
the boolean `True`, not a truthiness test; it is modelled by matching the
exact value `J.b true`. -/
def validate_notification_settings (config : J) : Except Unit Bool :=
  match dictGet config "notifications" (J.o []) with
  | .error e => .error e
  | .ok notifications =>
  match dictGet notifications "pushover" (J.o []) with
  | .error e => .error e
  | .ok pushover =>
  match dictGetOpt pushover "enabled" with
  | .error e => .error e
  | .ok poEn =>
  match
    (match poEn with
    | some (J.b true) =>
      match dictGetOpt pushover "user_key" with
      | .error e => .error e
      | .ok uk =>
      match dictGetOpt pushover "api_token" with
      | .error e => .error e
      | .ok tk =>
      if !jTruthyOpt uk || !jTruthyOpt tk then .ok true else .ok false
    | _ => .ok false : Except Unit Bool) with
  | .error e => .error e
  | .ok failPushover =>
  if failPushover then .ok false else
  match dictGet notifications "ntfy" (J.o []) with
  | .error e => .error e
  | .ok ntfy =>
  match dictGetOpt ntfy "enabled" with
  | .error e => .error e
  | .ok nfEn =>
  match
    (match nfEn with
    | some (J.b true) =>
      match dictGetOpt ntfy "topic" with
      | .error e => .error e
      | .ok tp =>
      if !jTruthyOpt tp then .ok true else .ok false
    | _ => .ok false : Except Unit Bool) with
  | .error e => .error e
  | .ok failNtfy =>
  if failNtfy then .ok false else
  .ok true

/-- An outbound HTTP call attempted by the script.  Only the data the
script itself supplies per call is recorded; fixed strings such as the
endpoint hosts, the date-window query parameters and the static headers
are implied by the constructor. -/
inductive Request where
  | calendarGet (place_id service_id : Option J)
  | pushoverPost (token user : Option J) (title message : String)
  | ntfyPost (topic : Option J) (message title priority tags : String)

/-- The network's behaviour for one run: the calendar response body
(`none` models a transport error or non-2xx status, i.e. a
`requests.exceptions.RequestException`), and whether each notification
POST succeeds. -/
structure NetOracle where
  calendarResp : Option J
  pushoverOk : Bool
  ntfyOk : Bool

/-- `get_collection_data` (src/main.py lines 188-223): reads the two
identifiers from the configuration, issues the GET (always exactly one),
and returns the parsed body, or `None` on a caught request failure.
The `.error` outcome models an uncaught exception in the `config.get`
chain before the request is made. -/
def get_collection_data (config : J) (resp : Option J) : Except Unit (List Request × Option J) :=
  match dictGet config "recollect" (J.o []) with
  | .error e => .error e
  | .ok recollect_config =>
  match dictGetOpt recollect_config "place_id" with
  | .error e => .error e
  | .ok place_id =>
  match dictGetOpt recollect_config "service_id" with
  | .error e => .error e
  | .ok service_id =>
  .ok ([Request.calendarGet place_id service_id], resp)

/-- The inner loop of `get_tomorrow_collections` (src/main.py lines
236-239) over one event's flags, extending the accumulated list of
collection types. -/
def flagsLoop (acc : List J) : List J → Except Unit (List J)
  | [] => .ok acc
  | flag :: rest =>
    match dictGetOpt flag "subject" with
    | .error e => .error e
    | .ok collection_type =>
      match collection_type with
      | some v =>
        if jTruthyV v && !acc.any (fun e => jEq e v) then flagsLoop (acc ++ [v]) rest
        else flagsLoop acc rest
      | none => flagsLoop acc rest

/-- The outer loop of `get_tomorrow_collections` (src/main.py lines
234-239) over the events. -/
def eventsLoop (tomorrow : String) (acc : List J) : List J → Except Unit (List J)
  | [] => .ok acc
  | event :: rest =>
    match dictGetOpt event "day" with
    | .error e => .error e
    | .ok day =>
      if pyEqStr day tomorrow then
        match dictGet event "flags" (J.arr []) with
        | .error e => .error e
        | .ok flags =>
        match pyIter flags with
        | .error e => .error e
        | .ok flagList =>
        match flagsLoop acc flagList with
        | .error e => .error e
        | .ok acc2 => eventsLoop tomorrow acc2 rest
      else eventsLoop tomorrow acc rest

/-- `get_tomorrow_collections` (src/main.py lines 225-241), with
tomorrow's date string as a parameter. -/
def get_tomorrow_collections (data : Option J) (tomorrow : String) : Except Unit (List J) :=
  match data with
  | none => .ok []
  | some d =>
    if !jTruthyV d then .ok [] else
    match pyContains "events" d with
    | .error e => .error e
    | .ok false => .ok []
    | .ok true =>
      match pyIndex d "events" with
      | .error e => .error e
      | .ok eventsVal =>
      match pyIter eventsVal with
      | .error e => .error e
      | .ok events => eventsLoop tomorrow [] events

/-- Conversion of a list of collection types to Python strings for
`", ".join(...)`: succeeds only when every element is a `str`
(TypeError otherwise). -/
def asStrings : List J → Option (List String)
  | [] => some []
  | J.s v :: rest => (asStrings rest).map (fun r => v :: r)
  | _ => none

/-- Character-level string join, used instead of `String.intercalate` so
terms reduce definitionally. -/
def joinComma (ss : List String) : String :=
  String.mk (List.intercalate [Char.ofNat 44, Char.ofNat 32] (ss.map String.toList))

/-- The message-composition block shared verbatim by both dispatchers
(src/main.py lines 248-251 and 276-279). -/
def composeMessage (collection_types : List J) : Except Unit String :=
  if collection_types.isEmpty then .ok "No waste collection scheduled for tomorrow."
  else
    match asStrings collection_types with
    | some ss => .ok ("Tomorrow's collection includes: " ++ joinComma ss ++ ".")
    | none => .error ()

/-- `send_pushover_notification` (src/main.py lines 243-269): no-op with
result `False` when disabled; otherwise composes the message, POSTs it to
Pushover, and returns the outcome fixed by the oracle (a caught
`RequestException`, including a non-2xx from `raise_for_status`, yields
`False`). -/
def send_pushover_notification (collection_types : List J) (config : J) (netOk : Bool) :
    Except Unit (List Request × Bool) :=
  match dictGet config "notifications" (J.o []) with
  | .error e => .error e
  | .ok notifications =>
  match dictGet notifications "pushover" (J.o []) with
  | .error e => .error e
  | .ok pushover_config =>
  match dictGet pushover_config "enabled" (J.b false) with
  | .error e => .error e
  | .ok en =>
  if !jTruthyV en then .ok ([], false) else
  match composeMessage collection_types with
  | .error e => .error e
  | .ok message =>
  match dictGetOpt pushover_config "api_token" with
  | .error e => .error e
  | .ok token =>
  match dictGetOpt pushover_config "user_key" with
  | .error e => .error e
  | .ok user =>
  .ok ([Request.pushoverPost token user "Tomorrow's Waste Collection" message], netOk)

/-- `send_ntfy_notification` (src/main.py lines 271-298), analogous to
the Pushover dispatcher. -/
def send_ntfy_notification (collection_types : List J) (config : J) (netOk : Bool) :
    Except Unit (List Request × Bool) :=
  match dictGet config "notifications" (J.o []) with
  | .error e => .error e
  | .ok notifications =>
  match dictGet notifications "ntfy" (J.o []) with
  | .error e => .error e
  | .ok ntfy_config =>
  match dictGet ntfy_config "enabled" (J.b false) with
  | .error e => .error e
  | .ok en =>
  if !jTruthyV en then .ok ([], false) else
  match composeMessage collection_types with
  | .error e => .error e
  | .ok message =>
  match dictGetOpt ntfy_config "topic" with
  | .error e => .error e
  | .ok topic =>
  .ok ([Request.ntfyPost topic message "Tomorrow's Waste Collection" "default" "trash,recycle"], netOk)

/-- The normal-run branch of `main` (src/main.py lines 358-391), from
`load_config` onward, as a function of the configuration-file state, the
`--force` flag, today's weekday (Python numbering, Sunday = 6), tomorrow's
date string, and the network oracle.  Returns the list of HTTP requests
issued, in order, and the process exit code (0 for a normal return, 1 for
`sys.exit(1)` and for an uncaught exception). -/
def run_normal (file : Option J) (force : Bool) (weekday : Nat) (tomorrow : String)
    (net : NetOracle) : List Request × Nat :=
  match load_config file with
  | .error c => ([], c)
  | .ok config =>
    match validate_notification_settings config with
    | .error _ => ([], 1)
    | .ok false => ([], 1)
    | .ok true =>
      if !force && weekday ≠ 6 then ([], 0)
      else
        match get_collection_data config net.calendarResp with
        | .error _ => ([], 1)
        | .ok (fetchReqs, collection_data) =>
          if !jTruthyOpt collection_data then (fetchReqs, 0)
          else
            match get_tomorrow_collections collection_data tomorrow with
            | .error _ => (fetchReqs, 1)
            | .ok tomorrow_collections =>
              match send_pushover_notification tomorrow_collections config net.pushoverOk with
              | .error _ => (fetchReqs, 1)
              | .ok (poReqs, _) =>
                match send_ntfy_notification tomorrow_collections config net.ntfyOk with
                | .error _ => (fetchReqs ++ poReqs, 1)
                | .ok (nfReqs, _) => (fetchReqs ++ poReqs ++ nfReqs, 0)

/-! ## Helper lemmas about the association-list update -/

theorem lookup_map_replace (k : String) (v : J) (fs : List (String × J)) :
    List.lookup k (fs.map (fun kv => if kv.1 = k then (kv.1, v) else kv))
      = Option.map (fun _ => v) (List.lookup k fs) := by
  induction fs with
  | nil => rfl
  | cons a rest ih =>
    obtain ⟨ak, av⟩ := a
    simp only [List.map_cons]
    by_cases hk : ak = k
    · rw [if_pos (show (ak, av).1 = k from hk)]
      subst hk
      simp [List.lookup]
    · rw [if_neg (show ¬ (ak, av).1 = k from hk)]
      have hb : (k == ak) = false := beq_eq_false_iff_ne.mpr (fun he => hk he.symm)
      simp [List.lookup, hb, ih]

theorem lookup_map_replace_other (k k2 : String) (v : J) (fs : List (String × J))
    (hk : k2 ≠ k) :
    List.lookup k2 (fs.map (fun kv => if kv.1 = k then (kv.1, v) else kv))
      = List.lookup k2 fs := by
  induction fs with
  | nil => rfl
  | cons a rest ih =>
    obtain ⟨ak, av⟩ := a
    simp only [List.map_cons]
    by_cases hak : ak = k
    · rw [if_pos (show (ak, av).1 = k from hak)]
      subst hak
      have hb : (k2 == ak) = false := beq_eq_false_iff_ne.mpr hk
      simp [List.lookup, hb, ih]
    · rw [if_neg (show ¬ (ak, av).1 = k from hak)]
      cases hb : (k2 == ak) with
      | true => simp [List.lookup, hb]
      | false => simp [List.lookup, hb, ih]

theorem lookup_append_single (k : String) (v : J) (fs : List (String × J))
    (h : List.lookup k fs = none) :
    List.lookup k (fs ++ [(k, v)]) = some v := by
  induction fs with
  | nil => simp [List.lookup]
  | cons a rest ih =>
    obtain ⟨ak, av⟩ := a
    cases hb : (k == ak) with
    | true => simp [List.lookup, hb] at h
    | false =>
      simp only [List.lookup, List.cons_append, hb] at h ⊢
      exact ih h

theorem lookup_append_single_other (k k2 : String) (v : J) (fs : List (String × J))
    (hk : k2 ≠ k) :
    List.lookup k2 (fs ++ [(k, v)]) = List.lookup k2 fs := by
  have hb : (k2 == k) = false := beq_eq_false_iff_ne.mpr hk
  induction fs with
  | nil => simp [List.lookup, hb]
  | cons a rest ih =>
    obtain ⟨ak, av⟩ := a
    cases hb2 : (k2 == ak) with
    | true => simp [List.lookup, hb2]
    | false => simp [List.lookup, List.cons_append, hb2, ih]

theorem lookup_setKey_self (fs : List (String × J)) (k : String) (v : J) :
    List.lookup k (setKey fs k v) = some v := by
  unfold setKey
  split
  · rw [lookup_map_replace]
    next hsome =>
    cases hl : List.lookup k fs with
    | none => rw [hl] at hsome; simp at hsome
    | some w => rfl
  · next hnone =>
    exact lookup_append_single k v fs (Option.not_isSome_iff_eq_none.mp hnone)

theorem lookup_setKey_other (fs : List (String × J)) (k k2 : String) (v : J)
    (hk : k2 ≠ k) :
    List.lookup k2 (setKey fs k v) = List.lookup k2 fs := by
  unfold setKey
  split
  · exact lookup_map_replace_other k k2 v fs hk
  · exact lookup_append_single_other k k2 v fs hk

/-! ## Claims about the ID Extraction Helper -/

/-- C10: for every input text, `extract_ids_from_curl` returns either both
identifiers or `(None, None)`; it never returns exactly one of them. -/
theorem extract_ids_from_curl_all_or_nothing (s : String) :
    (∃ p q : String, extract_ids_from_curl s = (some p, some q)) ∨
    extract_ids_from_curl s = (none, none) := by
  rcases hp : searchLitClass "places/".toList isIdChar s.toList with _ | p <;>
    rcases hs : searchLitClass "services/".toList isDigitChar s.toList with _ | q <;>
      rcases hh : searchHeader s.toList with _ | ⟨a, b⟩ <;>
        simp only [extract_ids_from_curl, hp, hs, hh] <;>
          first
            | exact Or.inr rfl
            | exact Or.inr trivial
            | (split
                <;> first
                  | exact Or.inl ⟨_, _, rfl⟩
                  | exact Or.inr rfl)

/-- C7 counterexample: a pasted text that contains the URL segment
`places/ABC-123/services/456/events` but yields different identifiers,
because `re.search` returns the leftmost match and an earlier part of the
text already matches both URL patterns. -/
theorem extract_ids_from_curl_leftmost_counterexample :
    extract_ids_from_curl "places/0/services/1/x places/ABC-123/services/456/events"
      = (some "0", some "1") ∧
    (some ("0" : String), some ("1" : String)) ≠ (some "ABC-123", some "456") := by
  exact ⟨rfl, by decide⟩

/-- C7 (amended): when the segment `places/ABC-123/services/456/events`
provides the leftmost matches of the URL patterns - in particular whenever
the pasted text starts with it - extraction yields
`("ABC-123", "456")`; and the `X-Recollect-Place` header pattern serves as
fallback when the URL patterns match nothing. -/
theorem extract_ids_from_curl_spec :
    (∀ post : String,
      extract_ids_from_curl ("places/ABC-123/services/456/events" ++ post)
        = (some "ABC-123", some "456")) ∧
    extract_ids_from_curl "curl -H X-Recollect-Place: ABC-123:456"
      = (some "ABC-123", some "456") := by
  refine ⟨fun post => ?_, rfl⟩
  have hl : ("places/ABC-123/services/456/events" ++ post).toList
      = "places/ABC-123/services/456/events".toList ++ post.toList :=
    String.data_append _ _
  have hp : searchLitClass "places/".toList isIdChar
      ("places/ABC-123/services/456/events".toList ++ post.toList)
        = some "ABC-123".toList := rfl
  have hs : searchLitClass "services/".toList isDigitChar
      ("places/ABC-123/services/456/events".toList ++ post.toList)
        = some "456".toList := rfl
  rcases hh : searchHeader ("places/ABC-123/services/456/events".toList ++ post.toList)
      with _ | ⟨a, b⟩ <;>
    simp only [extract_ids_from_curl, hl, hp, hs, hh] <;> rfl

/-- C8: when extraction does not recover both identifiers, `extract_ids`
reports failure and leaves the configuration-file state exactly as it was
(no file is created or modified). -/
theorem extract_ids_failure_no_mutation (lines : List String) (file : Option J)
    (h : (extract_ids_from_curl (read_curl_command lines)).1 = none ∨
         (extract_ids_from_curl (read_curl_command lines)).2 = none) :
    extract_ids lines file = (file, false) := by
  unfold extract_ids
  cases he : extract_ids_from_curl (read_curl_command lines) with
  | mk p q =>
    rw [he] at h
    rcases h with h | h
    · simp only at h
      subst h
      cases q <;> rfl
    · simp only at h
      subst h
      cases p <;> rfl

/-- C8 witness: a pasted text with no identifiers leaves an existing file
untouched and reports failure. -/
theorem extract_ids_failure_no_mutation_witness :
    extract_ids ["hello"] (some (J.o [("x", J.null)])) = (some (J.o [("x", J.null)]), false) :=
  extract_ids_failure_no_mutation ["hello"] (some (J.o [("x", J.null)])) (Or.inl rfl)

/-- A configuration file whose `recollect` section carries an extra field
besides the identifiers, used to exhibit the replacement behaviour of
`extract_ids`. -/
def configWithZone : J :=
  J.o [("recollect", J.o [("place_id", J.s "OLD"), ("zone", J.s "5")]),
       ("notifications", J.o [])]

/-- C9 counterexample: `extract_ids` does not merge into the `recollect`
section - it replaces it wholesale, so the pre-existing field `zone`
inside `recollect`, which is no part of the update, is dropped rather than
preserved. -/
theorem extract_ids_drops_recollect_fields :
    jPath configWithZone ["recollect", "zone"] = some (J.s "5") ∧
    (∃ c2, (extract_ids ["places/ABC-123/services/456/events"] (some configWithZone)).1
        = some c2 ∧
      jPath c2 ["recollect", "zone"] = none) :=
  ⟨rfl, ⟨_, rfl, rfl⟩⟩

/-- C9 (amended): when extraction succeeds, the `recollect` section of the
configuration is replaced by exactly the extracted pair (so fields
previously inside `recollect` are dropped), every top-level field other
than `recollect` keeps its value, and an absent file is created from the
default skeleton before the same replacement. -/
theorem extract_ids_success_updates_recollect (lines : List String) (file : Option J)
    (p q : String) (fs : List (String × J))
    (hex : extract_ids_from_curl (read_curl_command lines) = (some p, some q))
    (hf : file = some (J.o fs) ∨ (file = none ∧ J.o fs = extract_default_config)) :
    ∃ fs2, (extract_ids lines file).1 = some (J.o fs2) ∧
      List.lookup "recollect" fs2
        = some (J.o [("place_id", J.s p), ("service_id", J.s q)]) ∧
      ∀ k, k ≠ "recollect" → List.lookup k fs2 = List.lookup k fs := by
  refine ⟨setKey fs "recollect" (J.o [("place_id", J.s p), ("service_id", J.s q)]), ?_, ?_, ?_⟩
  · unfold extract_ids extract_ids_update
    rw [hex]
    rcases hf with hf | ⟨hf, hdef⟩
    · rw [hf]
      rfl
    · rw [hf, ← hdef]
      rfl
  · exact lookup_setKey_self fs "recollect" _
  · exact fun k hk => lookup_setKey_other fs "recollect" k _ hk

/-- C9 witness: a concrete successful extraction replaces `recollect` and
preserves the unrelated top-level field `other`. -/
theorem extract_ids_success_updates_recollect_witness :
    ∃ fs2, (extract_ids ["places/ABC-123/services/456/events"]
        (some (J.o [("recollect", J.o []), ("other", J.s "keep")]))).1 = some (J.o fs2) ∧
      List.lookup "recollect" fs2
        = some (J.o [("place_id", J.s "ABC-123"), ("service_id", J.s "456")]) ∧
      ∀ k, k ≠ "recollect" →
        List.lookup k fs2 = List.lookup k [("recollect", J.o []), ("other", J.s "keep")] :=
  extract_ids_success_updates_recollect ["places/ABC-123/services/456/events"]
    (some (J.o [("recollect", J.o []), ("other", J.s "keep")])) "ABC-123" "456"
    [("recollect", J.o []), ("other", J.s "keep")] rfl (Or.inl rfl)

/-! ## Specification-side view of the collection filter -/

/-- Keep the first occurrence of every string, dropping later duplicates
(the declarative reading of "distinct subjects in first-seen order"). -/
def dedupKeepFirst : List String → List String
  | [] => []
  | x :: xs => x :: dedupKeepFirst (xs.filter (fun y => y ≠ x))
termination_by l => l.length
decreasing_by
  simp only [List.length_cons]
  exact Nat.lt_succ_of_le (List.length_filter_le _ _)

/-- A flag object `{subject: s}`. -/
def flagJ (s : String) : J := J.o [("subject", J.s s)]

/-- An event object `{day: d, flags: [...]}` from a day and its subject
labels. -/
def eventJ (e : String × List String) : J :=
  J.o [("day", J.s e.1), ("flags", J.arr (e.2.map flagJ))]

/-- An events payload `{events: [...]}`. -/
def payloadJ (events : List (String × List String)) : J :=
  J.o [("events", J.arr (events.map eventJ))]

/-- String-level image of the accumulating loop of
`get_tomorrow_collections`: append each non-empty subject not yet seen. -/
def collectS (acc : List String) : List String → List String
  | [] => acc
  | s :: rest =>
    if s ≠ "" ∧ s ∉ acc then collectS (acc ++ [s]) rest else collectS acc rest

/-- String-level image of the outer loop over events. -/
def collectE (tomorrow : String) (acc : List String) :
    List (String × List String) → List String
  | [] => acc
  | e :: rest => collectE tomorrow (if e.1 = tomorrow then collectS acc e.2 else acc) rest

theorem anyJEq_eq_mem (acc : List String) (s : String) :
    ((acc.map J.s).any (fun e => jEq e (J.s s))) = decide (s ∈ acc) := by
  induction acc with
  | nil => rfl
  | cons a rest ih =>
    simp only [List.map_cons, List.any_cons, ih]
    show (jEq (J.s a) (J.s s) || decide (s ∈ rest)) = decide (s ∈ a :: rest)
    have hj : jEq (J.s a) (J.s s) = decide (a = s) := rfl
    rw [hj]
    by_cases h : a = s
    · subst h
      simp [List.mem_cons]
    · simp [List.mem_cons, h]
      intro he
      exact absurd he.symm h

theorem truthyNotMem (s : String) (acc : List String) :
    (jTruthyV (J.s s) && !((acc.map J.s).any (fun e => jEq e (J.s s))))
      = decide (s ≠ "" ∧ s ∉ acc) := by
  rw [anyJEq_eq_mem]
  show (decide ¬(s = "") && !decide (s ∈ acc)) = decide (s ≠ "" ∧ s ∉ acc)
  by_cases h1 : s = "" <;> by_cases h2 : s ∈ acc <;> simp [h1, h2]

theorem flagsLoop_map (subjects : List String) (acc : List String) :
    flagsLoop (acc.map J.s) (subjects.map flagJ)
      = .ok ((collectS acc subjects).map J.s) := by
  induction subjects generalizing acc with
  | nil => rfl
  | cons s rest ih =>
    have h1 : flagsLoop (acc.map J.s) ((s :: rest).map flagJ)
        = if jTruthyV (J.s s) && !((acc.map J.s).any (fun e => jEq e (J.s s)))
            then flagsLoop (acc.map J.s ++ [J.s s]) (rest.map flagJ)
            else flagsLoop (acc.map J.s) (rest.map flagJ) := rfl
    have h2 : collectS acc (s :: rest)
        = if s ≠ "" ∧ s ∉ acc then collectS (acc ++ [s]) rest else collectS acc rest := rfl
    rw [h1, truthyNotMem, h2]
    by_cases h : s ≠ "" ∧ s ∉ acc
    · rw [if_pos (decide_eq_true h), if_pos h]
      simpa using ih (acc ++ [s])
    · rw [if_neg (fun hc => h (of_decide_eq_true hc)), if_neg h]
      exact ih acc

theorem eventsLoop_map (events : List (String × List String)) (tomorrow : String)
    (acc : List String) :
    eventsLoop tomorrow (acc.map J.s) (events.map eventJ)
      = .ok ((collectE tomorrow acc events).map J.s) := by
  induction events generalizing acc with
  | nil => rfl
  | cons e rest ih =>
    obtain ⟨d, subj⟩ := e
    have h1 : eventsLoop tomorrow (acc.map J.s) (((d, subj) :: rest).map eventJ)
        = if pyEqStr (some (J.s d)) tomorrow
            then (match flagsLoop (acc.map J.s) (subj.map flagJ) with
                  | .error err => .error err
                  | .ok acc2 => eventsLoop tomorrow acc2 (rest.map eventJ))
            else eventsLoop tomorrow (acc.map J.s) (rest.map eventJ) := rfl
    have h3 : collectE tomorrow acc ((d, subj) :: rest)
        = collectE tomorrow (if d = tomorrow then collectS acc subj else acc) rest := rfl
    have h2 : pyEqStr (some (J.s d)) tomorrow = decide (d = tomorrow) := rfl
    rw [h1, h2, h3]
    by_cases hd : d = tomorrow
    · rw [if_pos (decide_eq_true hd), if_pos hd, flagsLoop_map]
      exact ih (collectS acc subj)
    · rw [if_neg (fun hc => hd (of_decide_eq_true hc)), if_neg hd]
      exact ih acc

theorem collectS_append (l1 l2 : List String) (acc : List String) :
    collectS acc (l1 ++ l2) = collectS (collectS acc l1) l2 := by
  induction l1 generalizing acc with
  | nil => rfl
  | cons s rest ih =>
    have h1 : collectS acc ((s :: rest) ++ l2)
        = if s ≠ "" ∧ s ∉ acc then collectS (acc ++ [s]) (rest ++ l2)
          else collectS acc (rest ++ l2) := rfl
    have h2 : collectS acc (s :: rest)
        = if s ≠ "" ∧ s ∉ acc then collectS (acc ++ [s]) rest else collectS acc rest := rfl
    rw [h1, h2]
    by_cases h : s ≠ "" ∧ s ∉ acc
    · rw [if_pos h, if_pos h, ih]
    · rw [if_neg h, if_neg h, ih]

theorem collectE_flatten (events : List (String × List String)) (tomorrow : String)
    (acc : List String) :
    collectE tomorrow acc events
      = collectS acc ((events.filter (fun e => e.1 = tomorrow)).flatMap (fun e => e.2)) := by
  induction events generalizing acc with
  | nil => rfl
  | cons e rest ih =>
    obtain ⟨d, subj⟩ := e
    have h1 : collectE tomorrow acc ((d, subj) :: rest)
        = collectE tomorrow (if d = tomorrow then collectS acc subj else acc) rest := rfl
    rw [h1]
    by_cases hd : d = tomorrow
    · rw [if_pos hd, ih]
      rw [List.filter_cons_of_pos (by simpa using hd), List.flatMap_cons, collectS_append]
    · rw [if_neg hd, ih]
      rw [List.filter_cons_of_neg (by simpa using hd)]

theorem collectS_eq_dedup (l : List String) (acc : List String)
    (h : ∀ s ∈ l, s ≠ "") :
    collectS acc l = acc ++ dedupKeepFirst (l.filter (fun s => s ∉ acc)) := by
  induction l generalizing acc with
  | nil => simp [collectS, dedupKeepFirst]
  | cons s rest ih =>
    have hs : s ≠ "" := h s (List.mem_cons_self s rest)
    have hrest : ∀ x ∈ rest, x ≠ "" := fun x hx => h x (List.mem_cons_of_mem s hx)
    have h2 : collectS acc (s :: rest)
        = if s ≠ "" ∧ s ∉ acc then collectS (acc ++ [s]) rest else collectS acc rest := rfl
    rw [h2]
    by_cases hmem : s ∈ acc
    · rw [if_neg (fun hc => hc.2 hmem)]
      rw [List.filter_cons_of_neg (by simpa using hmem)]
      exact ih acc hrest
    · rw [if_pos ⟨hs, hmem⟩]
      rw [List.filter_cons_of_pos (by simpa using hmem)]
      rw [ih (acc ++ [s]) hrest]
      have hdk : dedupKeepFirst (s :: rest.filter (fun y => y ∉ acc))
          = s :: dedupKeepFirst ((rest.filter (fun y => y ∉ acc)).filter (fun y => y ≠ s)) := by
        rw [dedupKeepFirst]
      have hff : (rest.filter (fun y => y ∉ acc)).filter (fun y => y ≠ s)
          = rest.filter (fun y => y ∉ acc ++ [s]) := by
        rw [List.filter_filter]
        apply List.filter_congr
        intro a _
        by_cases ha1 : a = s <;> by_cases ha2 : a ∈ acc <;>
          simp [ha1, ha2, List.mem_append]
      rw [hdk, hff]
      simp [List.append_assoc]

theorem get_tomorrow_collections_eval (events : List (String × List String))
    (tomorrow : String) :
    get_tomorrow_collections (some (payloadJ events)) tomorrow
      = .ok ((collectE tomorrow [] events).map J.s) := by
  have h1 : get_tomorrow_collections (some (payloadJ events)) tomorrow
      = eventsLoop tomorrow [] (events.map eventJ) := rfl
  rw [h1]
  exact eventsLoop_map events tomorrow []

/-! ## Claim about the collection filter -/

/-- C1: on an events payload whose flags carry (non-empty) subject labels,
`get_tomorrow_collections` returns exactly the distinct subjects of the
flags of the events whose `day` equals tomorrow, in first-seen order with
later duplicates suppressed. -/
theorem get_tomorrow_collections_distinct_first_seen
    (events : List (String × List String)) (tomorrow : String)
    (h : ∀ e ∈ events, ∀ s ∈ e.2, s ≠ "") :
    get_tomorrow_collections (some (payloadJ events)) tomorrow
      = .ok ((dedupKeepFirst
          ((events.filter (fun e => e.1 = tomorrow)).flatMap (fun e => e.2))).map J.s) := by
  rw [get_tomorrow_collections_eval, collectE_flatten]
  have hflat : ∀ s ∈ (events.filter (fun e => e.1 = tomorrow)).flatMap (fun e => e.2),
      s ≠ "" := by
    intro s hsmem
    rw [List.mem_flatMap] at hsmem
    obtain ⟨e, he, hse⟩ := hsmem
    exact h e (List.mem_of_mem_filter he) s hse
  rw [collectS_eq_dedup _ [] hflat]
  have hfid : ((events.filter (fun e => e.1 = tomorrow)).flatMap (fun e => e.2)).filter
      (fun s => s ∉ ([] : List String))
      = (events.filter (fun e => e.1 = tomorrow)).flatMap (fun e => e.2) := by
    apply List.filter_eq_self.mpr
    intro a _
    simp
  rw [hfid]
  rfl

/-- C1 witness: a payload with exactly one event on tomorrow's date whose
flags are Garbage, Recycling, Garbage (plus an unrelated event) filters to
exactly Garbage, Recycling. -/
theorem get_tomorrow_collections_distinct_first_seen_witness :
    get_tomorrow_collections
        (some (payloadJ [("2025-06-10", ["Garbage", "Recycling", "Garbage"]),
                         ("2025-06-11", ["Compost"])])) "2025-06-10"
      = .ok [J.s "Garbage", J.s "Recycling"] := by
  have h := get_tomorrow_collections_distinct_first_seen
    [("2025-06-10", ["Garbage", "Recycling", "Garbage"]), ("2025-06-11", ["Compost"])]
    "2025-06-10" (by decide)
  rw [h]
  rw [show List.filter (fun e => decide (e.1 = "2025-06-10"))
      [("2025-06-10", ["Garbage", "Recycling", "Garbage"]), ("2025-06-11", ["Compost"])]
      = [("2025-06-10", ["Garbage", "Recycling", "Garbage"])] from by decide]
  rw [show ([("2025-06-10", ["Garbage", "Recycling", "Garbage"])] :
        List (String × List String)).flatMap (fun e => e.2)
      = ["Garbage", "Recycling", "Garbage"] from by decide]
  rw [show dedupKeepFirst ["Garbage", "Recycling", "Garbage"] = ["Garbage", "Recycling"] from
    by simp [dedupKeepFirst]]
  rfl

/-! ## Message composition -/

theorem intercalate_cons_flatMap (sep w : List Char) (zs : List (List Char)) :
    List.intercalate sep (w :: zs) = w ++ zs.flatMap (fun z => sep ++ z) := by
  induction zs generalizing w with
  | nil => simp [List.intercalate, List.intersperse]
  | cons z zs ih =>
    have h1 : List.intercalate sep (w :: z :: zs)
        = w ++ sep ++ List.intercalate sep (z :: zs) := by
      simp [List.intercalate, List.intersperse, List.append_assoc]
    rw [h1, ih z]
    simp [List.append_assoc]

theorem joinComma_eq_intercalate (l : List String) : joinComma l = String.intercalate ", " l := by
  cases l with
  | nil => rfl
  | cons a as =>
    show joinComma (a :: as) = String.intercalate.go a ", " as
    unfold joinComma
    induction as generalizing a with
    | nil => simp [String.intercalate.go, List.intercalate]
    | cons b bs ih =>
      rw [String.intercalate.go]
      have hdata : (a ++ ", " ++ b).toList
          = a.toList ++ [Char.ofNat 44, Char.ofNat 32] ++ b.toList := by
        rw [show (a ++ ", " ++ b).toList = (a ++ ", ").toList ++ b.toList from String.data_append _ _,
            show (a ++ ", ").toList = a.toList ++ ", ".toList from String.data_append _ _]
        rfl
      have hih := ih (a ++ ", " ++ b)
      rw [List.map_cons, hdata] at hih
      rw [← hih, List.map_cons, List.map_cons,
          intercalate_cons_flatMap, intercalate_cons_flatMap]
      simp [List.append_assoc]

theorem asStrings_map (ss : List String) : asStrings (ss.map J.s) = some ss := by
  induction ss with
  | nil => rfl
  | cons a r ih => simp [asStrings, ih]

/-- The message both dispatchers compose, at the specification level. -/
def msgString (ss : List String) : String :=
  if ss = [] then "No waste collection scheduled for tomorrow."
  else "Tomorrow's collection includes: " ++ String.intercalate ", " ss ++ "."

theorem composeMessage_map (ss : List String) :
    composeMessage (ss.map J.s) = .ok (msgString ss) := by
  cases ss with
  | nil => rfl
  | cons a r =>
    have h0 : composeMessage ((a :: r).map J.s)
        = match asStrings ((a :: r).map J.s) with
          | some ss => .ok ("Tomorrow's collection includes: " ++ joinComma ss ++ ".")
          | none => .error () := rfl
    rw [h0, asStrings_map]
    show Except.ok ("Tomorrow's collection includes: " ++ joinComma (a :: r) ++ ".")
        = .ok (msgString (a :: r))
    rw [joinComma_eq_intercalate]
    simp [msgString]

/-- A configuration value of the documented shape, with every leaf under
the script's own keys. -/
def mkConfig (pid sid : String) (poE : Bool) (uk tok : String) (ntE : Bool)
    (topic : String) : J :=
  J.o [("recollect", J.o [("place_id", J.s pid), ("service_id", J.s sid)]),
       ("notifications",
         J.o [("pushover",
                J.o [("enabled", J.b poE), ("user_key", J.s uk), ("api_token", J.s tok)]),
              ("ntfy", J.o [("enabled", J.b ntE), ("topic", J.s topic)])])]

theorem send_pushover_mkConfig_on (ss : List String) (pid sid uk tok topic : String)
    (ntE ok : Bool) :
    send_pushover_notification (ss.map J.s) (mkConfig pid sid true uk tok ntE topic) ok
      = .ok ([Request.pushoverPost (some (J.s tok)) (some (J.s uk))
          "Tomorrow's Waste Collection" (msgString ss)], ok) := by
  have h1 : send_pushover_notification (ss.map J.s) (mkConfig pid sid true uk tok ntE topic) ok
      = match composeMessage (ss.map J.s) with
        | .error e => .error e
        | .ok message => .ok ([Request.pushoverPost (some (J.s tok)) (some (J.s uk))
            "Tomorrow's Waste Collection" message], ok) := rfl
  rw [h1, composeMessage_map]

theorem send_ntfy_mkConfig_on (ss : List String) (pid sid uk tok topic : String)
    (poE ok : Bool) :
    send_ntfy_notification (ss.map J.s) (mkConfig pid sid poE uk tok true topic) ok
      = .ok ([Request.ntfyPost (some (J.s topic)) (msgString ss)
          "Tomorrow's Waste Collection" "default" "trash,recycle"], ok) := by
  have h1 : send_ntfy_notification (ss.map J.s) (mkConfig pid sid poE uk tok true topic) ok
      = match composeMessage (ss.map J.s) with
        | .error e => .error e
        | .ok message => .ok ([Request.ntfyPost (some (J.s topic)) message
            "Tomorrow's Waste Collection" "default" "trash,recycle"], ok) := rfl
  rw [h1, composeMessage_map]

/-- C2: each dispatcher, when enabled, composes exactly the message
"No waste collection scheduled for tomorrow." for an empty collection-type
set and "Tomorrow's collection includes: " ++ types joined by ", " ++ "."
otherwise, and sends it. -/
theorem dispatcher_message_composition (ss : List String) (pid sid uk tok topic : String)
    (poE ntE ok : Bool) :
    send_pushover_notification (ss.map J.s) (mkConfig pid sid true uk tok ntE topic) ok
      = .ok ([Request.pushoverPost (some (J.s tok)) (some (J.s uk))
          "Tomorrow's Waste Collection"
          (if ss = [] then "No waste collection scheduled for tomorrow."
           else "Tomorrow's collection includes: " ++ String.intercalate ", " ss ++ ".")], ok)
    ∧ send_ntfy_notification (ss.map J.s) (mkConfig pid sid poE uk tok true topic) ok
      = .ok ([Request.ntfyPost (some (J.s topic))
          (if ss = [] then "No waste collection scheduled for tomorrow."
           else "Tomorrow's collection includes: " ++ String.intercalate ", " ss ++ ".")
          "Tomorrow's Waste Collection" "default" "trash,recycle"], ok) := by
  exact ⟨send_pushover_mkConfig_on ss pid sid uk tok topic ntE ok,
         send_ntfy_mkConfig_on ss pid sid uk tok topic poE ok⟩

/-! ## Evaluation of the pipeline on well-formed configurations -/

theorem load_config_mkConfig (pid sid uk tok topic : String) (poE ntE : Bool)
    (hpid : pid ≠ "") (hsid : sid ≠ "")
    (hpo : poE = true → uk ≠ "" ∧ tok ≠ "")
    (hnt : ntE = true → topic ≠ "")
    (hen : poE = true ∨ ntE = true) :
    load_config (some (mkConfig pid sid poE uk tok ntE topic))
      = .ok (mkConfig pid sid poE uk tok ntE topic) := by
  cases poE with
  | true =>
    obtain ⟨huk, htok⟩ := hpo rfl
    cases ntE with
    | true =>
      have htp := hnt rfl
      simp [load_config, load_config_checks, load_config_notif_checks, backend_flag_get,
        backend_cred_get, mkConfig, dictGet, dictGetOpt, List.lookup,
        jTruthyOpt, jTruthyV, hpid, hsid, huk, htok, htp]
    | false =>
      simp [load_config, load_config_checks, load_config_notif_checks, backend_flag_get,
        backend_cred_get, mkConfig, dictGet, dictGetOpt, List.lookup,
        jTruthyOpt, jTruthyV, hpid, hsid, huk, htok]
  | false =>
    cases ntE with
    | true =>
      have htp := hnt rfl
      simp [load_config, load_config_checks, load_config_notif_checks, backend_flag_get,
        backend_cred_get, mkConfig, dictGet, dictGetOpt, List.lookup,
        jTruthyOpt, jTruthyV, hpid, hsid, htp]
    | false => simp at hen

theorem validate_mkConfig (pid sid uk tok topic : String) (poE ntE : Bool)
    (hpo : poE = true → uk ≠ "" ∧ tok ≠ "")
    (hnt : ntE = true → topic ≠ "") :
    validate_notification_settings (mkConfig pid sid poE uk tok ntE topic) = .ok true := by
  cases poE with
  | true =>
    obtain ⟨huk, htok⟩ := hpo rfl
    cases ntE with
    | true =>
      have htp := hnt rfl
      simp [validate_notification_settings, mkConfig, dictGet, dictGetOpt, List.lookup,
        jTruthyOpt, jTruthyV, huk, htok, htp]
    | false =>
      simp [validate_notification_settings, mkConfig, dictGet, dictGetOpt, List.lookup,
        jTruthyOpt, jTruthyV, huk, htok]
  | false =>
    cases ntE with
    | true =>
      have htp := hnt rfl
      simp [validate_notification_settings, mkConfig, dictGet, dictGetOpt, List.lookup,
        jTruthyOpt, jTruthyV, htp]
    | false =>
      simp [validate_notification_settings, mkConfig, dictGet, dictGetOpt, List.lookup,
        jTruthyOpt, jTruthyV]

theorem run_normal_eval (pid sid uk tok topic : String) (poE ntE force : Bool) (wd : Nat)
    (tomorrow : String) (events : List (String × List String)) (poOk ntOk : Bool)
    (hpid : pid ≠ "") (hsid : sid ≠ "")
    (hpo : poE = true → uk ≠ "" ∧ tok ≠ "")
    (hnt : ntE = true → topic ≠ "")
    (hen : poE = true ∨ ntE = true)
    (hgate : force = true ∨ wd = 6) :
    run_normal (some (mkConfig pid sid poE uk tok ntE topic)) force wd tomorrow
        ⟨some (payloadJ events), poOk, ntOk⟩
      = ([Request.calendarGet (some (J.s pid)) (some (J.s sid))]
          ++ (if poE then [Request.pushoverPost (some (J.s tok)) (some (J.s uk))
                "Tomorrow's Waste Collection" (msgString (collectE tomorrow [] events))]
              else [])
          ++ (if ntE then [Request.ntfyPost (some (J.s topic))
                (msgString (collectE tomorrow [] events)) "Tomorrow's Waste Collection"
                "default" "trash,recycle"]
              else []), 0) := by
  have hgateF : (!force && decide (wd ≠ 6)) = false := by
    rcases hgate with h | h
    · rw [h]; rfl
    · rw [h]; simp
  have hfetch : get_collection_data (mkConfig pid sid poE uk tok ntE topic)
      (some (payloadJ events))
      = .ok ([Request.calendarGet (some (J.s pid)) (some (J.s sid))],
          some (payloadJ events)) := rfl
  have htruthy : jTruthyOpt (some (payloadJ events)) = true := rfl
  cases poE with
  | true =>
    cases ntE with
    | true =>
      simp only [run_normal,
        load_config_mkConfig pid sid uk tok topic true true hpid hsid hpo hnt hen,
        validate_mkConfig pid sid uk tok topic true true hpo hnt,
        hgateF, hfetch, htruthy, get_tomorrow_collections_eval,
        send_pushover_mkConfig_on, send_ntfy_mkConfig_on,
        Bool.not_true, Bool.false_and, if_true, if_false]
      simp
    | false =>
      have hsnt : send_ntfy_notification ((collectE tomorrow [] events).map J.s)
          (mkConfig pid sid true uk tok false topic) ntOk = .ok ([], false) := rfl
      simp only [run_normal,
        load_config_mkConfig pid sid uk tok topic true false hpid hsid hpo hnt hen,
        validate_mkConfig pid sid uk tok topic true false hpo hnt,
        hgateF, hfetch, htruthy, get_tomorrow_collections_eval,
        send_pushover_mkConfig_on, hsnt]
      simp
  | false =>
    cases ntE with
    | true =>
      have hspo : send_pushover_notification ((collectE tomorrow [] events).map J.s)
          (mkConfig pid sid false uk tok true topic) poOk = .ok ([], false) := rfl
      simp only [run_normal,
        load_config_mkConfig pid sid uk tok topic false true hpid hsid hpo hnt hen,
        validate_mkConfig pid sid uk tok topic false true hpo hnt,
        hgateF, hfetch, htruthy, get_tomorrow_collections_eval,
        hspo, send_ntfy_mkConfig_on]
      simp
    | false => simp at hen

/-! ## Spec predicates on raw configurations and load failure -/

/-- The configuration field at `path` is missing or the empty string. -/
def fieldMissing (c : J) (path : List String) : Prop :=
  jPath c path = none ∨ jPath c path = some (J.s "")

/-- Whether the backend's `enabled` flag is (truthily) set. -/
def backendEnabled (c : J) (b : String) : Bool :=
  match jPath c ["notifications", b, "enabled"] with
  | some v => jTruthyV v
  | none => false

/-- The backend credential at key `k` is missing or falsy. -/
def credentialMissing (c : J) (b k : String) : Prop :=
  match jPath c ["notifications", b, k] with
  | some v => jTruthyV v = false
  | none => True

theorem jPath_three (c : J) (k1 k2 k3 : String) (v : J)
    (h : jPath c [k1, k2, k3] = some v) :
    ∃ fs nfs pfs, c = J.o fs ∧ List.lookup k1 fs = some (J.o nfs) ∧
      List.lookup k2 nfs = some (J.o pfs) ∧ List.lookup k3 pfs = some v := by
  cases c with
  | o fs =>
    cases h1 : List.lookup k1 fs with
    | none => simp [jPath, h1] at h
    | some r =>
      simp only [jPath, h1] at h
      cases r with
      | o nfs =>
        cases h2 : List.lookup k2 nfs with
        | none => simp [jPath, h2] at h
        | some r2 =>
          simp only [jPath, h2] at h
          cases r2 with
          | o pfs =>
            cases h3 : List.lookup k3 pfs with
            | none => simp [jPath, h3] at h
            | some r3 =>
              simp only [jPath, h3] at h
              exact ⟨fs, nfs, pfs, rfl, h1, h2, by rw [h3, h]⟩
          | null => simp [jPath] at h
          | b bv => simp [jPath] at h
          | n nv => simp [jPath] at h
          | s sv => simp [jPath] at h
          | arr l => simp [jPath] at h
      | null => simp [jPath] at h
      | b bv => simp [jPath] at h
      | n nv => simp [jPath] at h
      | s sv => simp [jPath] at h
      | arr l => simp [jPath] at h
  | null => simp [jPath] at h
  | b bv => simp [jPath] at h
  | n nv => simp [jPath] at h
  | s sv => simp [jPath] at h
  | arr l => simp [jPath] at h

theorem backendEnabled_shape (fs : List (String × J)) (b : String)
    (h : backendEnabled (J.o fs) b = true) :
    ∃ nfs pfs e, List.lookup "notifications" fs = some (J.o nfs) ∧
      List.lookup b nfs = some (J.o pfs) ∧
      List.lookup "enabled" pfs = some e ∧ jTruthyV e = true := by
  unfold backendEnabled at h
  cases hp : jPath (J.o fs) ["notifications", b, "enabled"] with
  | none => rw [hp] at h; simp at h
  | some v =>
    rw [hp] at h
    obtain ⟨fs2, nfs, pfs, hfs, h1, h2, h3⟩ := jPath_three _ _ _ _ _ hp
    cases hfs
    exact ⟨nfs, pfs, v, h1, h2, h3, h⟩

theorem backend_flag_get_eval (fs : List (String × J)) (b : String) :
    backend_flag_get (J.o fs) b = .error () ∨
    ∃ e, backend_flag_get (J.o fs) b = .ok e ∧ jTruthyV e = backendEnabled (J.o fs) b := by
  cases h1 : List.lookup "notifications" fs with
  | none =>
    right
    exact ⟨J.b false, by simp [backend_flag_get, dictGet, h1],
      by simp [backendEnabled, jPath, h1, jTruthyV]⟩
  | some nt =>
    cases nt with
    | o nfs =>
      cases h2 : List.lookup b nfs with
      | none =>
        right
        exact ⟨J.b false, by simp [backend_flag_get, dictGet, h1, h2],
          by simp [backendEnabled, jPath, h1, h2, jTruthyV]⟩
      | some po =>
        cases po with
        | o pfs =>
          cases h3 : List.lookup "enabled" pfs with
          | none =>
            right
            exact ⟨J.b false, by simp [backend_flag_get, dictGet, h1, h2, h3],
              by simp [backendEnabled, jPath, h1, h2, h3, jTruthyV]⟩
          | some e =>
            right
            exact ⟨e, by simp [backend_flag_get, dictGet, h1, h2, h3],
              by simp [backendEnabled, jPath, h1, h2, h3]⟩
        | null => left; simp [backend_flag_get, dictGet, h1, h2]
        | b bv => left; simp [backend_flag_get, dictGet, h1, h2]
        | n nv => left; simp [backend_flag_get, dictGet, h1, h2]
        | s sv => left; simp [backend_flag_get, dictGet, h1, h2]
        | arr l => left; simp [backend_flag_get, dictGet, h1, h2]
    | null => left; simp [backend_flag_get, dictGet, h1]
    | b bv => left; simp [backend_flag_get, dictGet, h1]
    | n nv => left; simp [backend_flag_get, dictGet, h1]
    | s sv => left; simp [backend_flag_get, dictGet, h1]
    | arr l => left; simp [backend_flag_get, dictGet, h1]

theorem backend_cred_get_shape (fs nfs pfs : List (String × J)) (b k : String)
    (h1 : List.lookup "notifications" fs = some (J.o nfs))
    (h2 : List.lookup b nfs = some (J.o pfs)) :
    backend_cred_get (J.o fs) b k = .ok (List.lookup k pfs) ∧
    jPath (J.o fs) ["notifications", b, k] = List.lookup k pfs := by
  constructor
  · simp [backend_cred_get, dictGet, dictGetOpt, h1, h2]
  · cases h3 : List.lookup k pfs with
    | none => simp [jPath, h1, h2, h3]
    | some w => simp [jPath, h1, h2, h3]

theorem notifFail_disabled (fs : List (String × J))
    (hpo : backendEnabled (J.o fs) "pushover" = false)
    (hnt : backendEnabled (J.o fs) "ntfy" = false) :
    load_config_notif_checks (J.o fs) = .ok (.error 1) ∨
    load_config_notif_checks (J.o fs) = .error () := by
  rcases backend_flag_get_eval fs "pushover" with hE | ⟨e, hok, hflag⟩
  · right
    simp [load_config_notif_checks, hE]
  · rw [hpo] at hflag
    rcases backend_flag_get_eval fs "ntfy" with hE2 | ⟨f, hok2, hflag2⟩
    · right
      simp [load_config_notif_checks, hok, hE2]
    · rw [hnt] at hflag2
      left
      simp [load_config_notif_checks, hok, hok2, hflag, hflag2]

theorem notifFail_pushover_creds (fs : List (String × J))
    (hen : backendEnabled (J.o fs) "pushover" = true)
    (hcred : credentialMissing (J.o fs) "pushover" "user_key" ∨
             credentialMissing (J.o fs) "pushover" "api_token") :
    load_config_notif_checks (J.o fs) = .ok (.error 1) ∨
    load_config_notif_checks (J.o fs) = .error () := by
  obtain ⟨nfs, pfs, e, h1, h2, h3, htr⟩ := backendEnabled_shape fs "pushover" hen
  have hokpo : backend_flag_get (J.o fs) "pushover" = .ok e := by
    simp [backend_flag_get, dictGet, h1, h2, h3]
  obtain ⟨hcg_uk, hjp_uk⟩ := backend_cred_get_shape fs nfs pfs "pushover" "user_key" h1 h2
  obtain ⟨hcg_tk, hjp_tk⟩ := backend_cred_get_shape fs nfs pfs "pushover" "api_token" h1 h2
  have hfail : (!jTruthyOpt (List.lookup "user_key" pfs)
      || !jTruthyOpt (List.lookup "api_token" pfs)) = true := by
    rcases hcred with hc | hc
    · unfold credentialMissing at hc
      rw [hjp_uk] at hc
      cases hu : List.lookup "user_key" pfs with
      | none => simp [jTruthyOpt]
      | some u =>
        rw [hu] at hc
        simp [jTruthyOpt, hc]
    · unfold credentialMissing at hc
      rw [hjp_tk] at hc
      cases hu : List.lookup "api_token" pfs with
      | none => simp [jTruthyOpt]
      | some u =>
        rw [hu] at hc
        simp [jTruthyOpt, hc]
  rcases backend_flag_get_eval fs "ntfy" with hE2 | ⟨f, hok2, hflag2⟩
  · right
    simp [load_config_notif_checks, hokpo, htr, hE2]
  · left
    simp [load_config_notif_checks, hokpo, hok2, htr, hcg_uk, hcg_tk, hfail]

theorem notifFail_ntfy_topic (fs : List (String × J))
    (hen : backendEnabled (J.o fs) "ntfy" = true)
    (hcred : credentialMissing (J.o fs) "ntfy" "topic") :
    load_config_notif_checks (J.o fs) = .ok (.error 1) ∨
    load_config_notif_checks (J.o fs) = .error () := by
  obtain ⟨nfs, tfs, f, h1, h2, h3, htr⟩ := backendEnabled_shape fs "ntfy" hen
  have hoknt : backend_flag_get (J.o fs) "ntfy" = .ok f := by
    simp [backend_flag_get, dictGet, h1, h2, h3]
  obtain ⟨hcg_tp, hjp_tp⟩ := backend_cred_get_shape fs nfs tfs "ntfy" "topic" h1 h2
  have hfail : (!jTruthyOpt (List.lookup "topic" tfs)) = true := by
    unfold credentialMissing at hcred
    rw [hjp_tp] at hcred
    cases hu : List.lookup "topic" tfs with
    | none => simp [jTruthyOpt]
    | some u =>
      rw [hu] at hcred
      simp [jTruthyOpt, hcred]
  rcases backend_flag_get_eval fs "pushover" with hE | ⟨e, hokpo, hflagpo⟩
  · right
    simp [load_config_notif_checks, hE]
  · cases hbe : backendEnabled (J.o fs) "pushover" with
    | false =>
      rw [hbe] at hflagpo
      left
      simp [load_config_notif_checks, hokpo, hoknt, hflagpo, htr, hcg_tp, hfail]
    | true =>
      rw [hbe] at hflagpo
      obtain ⟨nfs2, pfs, e2, g1, g2, g3, gtr⟩ := backendEnabled_shape fs "pushover" hbe
      obtain ⟨hcg_uk, _⟩ := backend_cred_get_shape fs nfs2 pfs "pushover" "user_key" g1 g2
      obtain ⟨hcg_tk, _⟩ := backend_cred_get_shape fs nfs2 pfs "pushover" "api_token" g1 g2
      cases hpof : (!jTruthyOpt (List.lookup "user_key" pfs)
          || !jTruthyOpt (List.lookup "api_token" pfs)) with
      | true =>
        left
        simp [load_config_notif_checks, hokpo, hoknt, hflagpo, hcg_uk, hcg_tk, hpof]
      | false =>
        left
        simp [load_config_notif_checks, hokpo, hoknt, hflagpo, htr,
          hcg_uk, hcg_tk, hpof, hcg_tp, hfail]

theorem loadFail_place (fs : List (String × J))
    (hm : fieldMissing (J.o fs) ["recollect", "place_id"]) :
    load_config (some (J.o fs)) = .error 1 := by
  cases h1 : List.lookup "recollect" fs with
  | none =>
    simp [load_config, load_config_checks, dictGet, dictGetOpt, jTruthyOpt, h1]
  | some rc =>
    cases rc with
    | o rfs =>
      cases h2 : List.lookup "place_id" rfs with
      | none =>
        simp [load_config, load_config_checks, dictGet, dictGetOpt, jTruthyOpt, h1, h2]
      | some v =>
        have hv : v = J.s "" := by
          rcases hm with hm | hm <;> simp [jPath, h1, h2] at hm
          exact hm
        subst hv
        simp [load_config, load_config_checks, dictGet, dictGetOpt, jTruthyOpt, jTruthyV,
          h1, h2]
    | null => simp [load_config, load_config_checks, dictGet, dictGetOpt, h1]
    | b v => simp [load_config, load_config_checks, dictGet, dictGetOpt, h1]
    | n v => simp [load_config, load_config_checks, dictGet, dictGetOpt, h1]
    | s v => simp [load_config, load_config_checks, dictGet, dictGetOpt, h1]
    | arr l => simp [load_config, load_config_checks, dictGet, dictGetOpt, h1]

theorem loadFail_service (fs : List (String × J))
    (hm : fieldMissing (J.o fs) ["recollect", "service_id"]) :
    load_config (some (J.o fs)) = .error 1 := by
  cases h1 : List.lookup "recollect" fs with
  | none =>
    simp [load_config, load_config_checks, dictGet, dictGetOpt, jTruthyOpt, h1]
  | some rc =>
    cases rc with
    | o rfs =>
      cases h2 : List.lookup "place_id" rfs with
      | none =>
        simp [load_config, load_config_checks, dictGet, dictGetOpt, jTruthyOpt, h1, h2]
      | some v =>
        cases ht : jTruthyV v with
        | false =>
          simp [load_config, load_config_checks, dictGet, dictGetOpt, jTruthyOpt,
            h1, h2, ht]
        | true =>
          cases h3 : List.lookup "service_id" rfs with
          | none =>
            simp [load_config, load_config_checks, dictGet, dictGetOpt, jTruthyOpt,
              h1, h2, ht, h3]
          | some w =>
            have hw : w = J.s "" := by
              rcases hm with hm | hm <;> simp [jPath, h1, h3] at hm
              exact hm
            subst hw
            simp [load_config, load_config_checks, dictGet, dictGetOpt, jTruthyOpt,
              jTruthyV, h1, h2, ht, h3]
    | null => simp [load_config, load_config_checks, dictGet, dictGetOpt, h1]
    | b v => simp [load_config, load_config_checks, dictGet, dictGetOpt, h1]
    | n v => simp [load_config, load_config_checks, dictGet, dictGetOpt, h1]
    | s v => simp [load_config, load_config_checks, dictGet, dictGetOpt, h1]
    | arr l => simp [load_config, load_config_checks, dictGet, dictGetOpt, h1]

theorem loadFail_of_notifFail (fs : List (String × J))
    (hn : load_config_notif_checks (J.o fs) = .ok (.error 1) ∨
          load_config_notif_checks (J.o fs) = .error ()) :
    load_config (some (J.o fs)) = .error 1 := by
  cases h1 : List.lookup "recollect" fs with
  | none =>
    simp [load_config, load_config_checks, dictGet, dictGetOpt, jTruthyOpt, h1]
  | some rc =>
    cases rc with
    | o rfs =>
      cases h2 : List.lookup "place_id" rfs with
      | none =>
        simp [load_config, load_config_checks, dictGet, dictGetOpt, jTruthyOpt, h1, h2]
      | some v =>
        cases ht : jTruthyV v with
        | false =>
          simp [load_config, load_config_checks, dictGet, dictGetOpt, jTruthyOpt,
            h1, h2, ht]
        | true =>
          cases h3 : List.lookup "service_id" rfs with
          | none =>
            simp [load_config, load_config_checks, dictGet, dictGetOpt, jTruthyOpt,
              h1, h2, ht, h3]
          | some w =>
            cases htw : jTruthyV w with
            | false =>
              simp [load_config, load_config_checks, dictGet, dictGetOpt, jTruthyOpt,
                h1, h2, ht, h3, htw]
            | true =>
              rcases hn with hn | hn <;>
                simp [load_config, load_config_checks, dictGet, dictGetOpt, jTruthyOpt,
                  h1, h2, ht, h3, htw, hn]
    | null => simp [load_config, load_config_checks, dictGet, dictGetOpt, h1]
    | b bv => simp [load_config, load_config_checks, dictGet, dictGetOpt, h1]
    | n nv => simp [load_config, load_config_checks, dictGet, dictGetOpt, h1]
    | s sv => simp [load_config, load_config_checks, dictGet, dictGetOpt, h1]
    | arr l => simp [load_config, load_config_checks, dictGet, dictGetOpt, h1]

theorem load_config_fails (c : J)
    (h : fieldMissing c ["recollect", "place_id"]
      ∨ fieldMissing c ["recollect", "service_id"]
      ∨ (backendEnabled c "pushover" = false ∧ backendEnabled c "ntfy" = false)
      ∨ (backendEnabled c "pushover" = true ∧
          (credentialMissing c "pushover" "user_key" ∨
           credentialMissing c "pushover" "api_token"))
      ∨ (backendEnabled c "ntfy" = true ∧ credentialMissing c "ntfy" "topic")) :
    load_config (some c) = .error 1 := by
  cases c with
  | o fs =>
    rcases h with h | h | ⟨h1, h2⟩ | ⟨h1, h2⟩ | ⟨h1, h2⟩
    · exact loadFail_place fs h
    · exact loadFail_service fs h
    · exact loadFail_of_notifFail fs (notifFail_disabled fs h1 h2)
    · exact loadFail_of_notifFail fs (notifFail_pushover_creds fs h1 h2)
    · exact loadFail_of_notifFail fs (notifFail_ntfy_topic fs h1 h2)
  | null => rfl
  | b bv => rfl
  | n nv => rfl
  | s sv => rfl
  | arr l => rfl

/-- Classifier: is this request a Pushover message POST? -/
def isPushoverPost : Request → Bool
  | .pushoverPost _ _ _ _ => true
  | _ => false

/-- Classifier: is this request an ntfy POST? -/
def isNtfyPost : Request → Bool
  | .ntfyPost _ _ _ _ _ => true
  | _ => false

/-- C4: a configuration whose `place_id` or `service_id` is empty or
missing - and likewise one with no notification backend enabled, or an
enabled backend missing its required credentials - makes `load_config`
exit with code 1, and the run performs no network request at all. -/
theorem load_config_failure_no_network (c : J) (force : Bool) (wd : Nat)
    (tomorrow : String) (net : NetOracle)
    (h : fieldMissing c ["recollect", "place_id"]
      ∨ fieldMissing c ["recollect", "service_id"]
      ∨ (backendEnabled c "pushover" = false ∧ backendEnabled c "ntfy" = false)
      ∨ (backendEnabled c "pushover" = true ∧
          (credentialMissing c "pushover" "user_key" ∨
           credentialMissing c "pushover" "api_token"))
      ∨ (backendEnabled c "ntfy" = true ∧ credentialMissing c "ntfy" "topic")) :
    load_config (some c) = .error 1 ∧
    run_normal (some c) force wd tomorrow net = ([], 1) := by
  have hl := load_config_fails c h
  refine ⟨hl, ?_⟩
  simp only [run_normal, hl]

/-- C4 witness: the empty configuration object is rejected with exit code 1
and no request is issued. -/
theorem load_config_failure_no_network_witness :
    load_config (some (J.o [])) = .error 1 ∧
    run_normal (some (J.o [])) true 6 "2025-06-10" ⟨none, false, false⟩ = ([], 1) :=
  load_config_failure_no_network (J.o []) true 6 "2025-06-10" ⟨none, false, false⟩
    (Or.inl (Or.inl rfl))

/-- C5: on a valid configuration, without `--force`, on a day that is not
Sunday (Python weekday 6), the run performs no network request at all (in
particular the fetch is never issued) and exits with code 0. -/
theorem day_gate_skips_fetch (file : Option J) (config : J) (wd : Nat)
    (tomorrow : String) (net : NetOracle)
    (h1 : load_config file = .ok config)
    (h2 : validate_notification_settings config = .ok true)
    (h3 : wd ≠ 6) :
    run_normal file false wd tomorrow net = ([], 0) := by
  simp only [run_normal, h1, h2]
  simp [h3]

/-- C5 witness: a valid configuration on a Monday (weekday 0) without
`--force` skips everything and exits 0. -/
theorem day_gate_skips_fetch_witness :
    run_normal (some (mkConfig "PLACE" "1" true "uk" "tok" false "")) false 0 "2025-06-10"
      ⟨some (payloadJ [("2025-06-10", ["Garbage"])]), true, true⟩ = ([], 0) :=
  day_gate_skips_fetch (some (mkConfig "PLACE" "1" true "uk" "tok" false ""))
    (mkConfig "PLACE" "1" true "uk" "tok" false "") 0 "2025-06-10"
    ⟨some (payloadJ [("2025-06-10", ["Garbage"])]), true, true⟩ rfl rfl (by decide)

/-- C3: a dispatcher whose `enabled` flag is `false` performs no request,
returns `False` and raises no error; and a run with Pushover enabled (with
credentials) and ntfy disabled, on a payload with exactly one matching
event, issues exactly one Pushover POST and no ntfy request. -/
theorem pushover_only_run_and_disabled_noop :
    (∀ (types : List J) (config : J) (ok : Bool),
      jPath config ["notifications", "pushover", "enabled"] = some (J.b false) →
      send_pushover_notification types config ok = .ok ([], false)) ∧
    (∀ (types : List J) (config : J) (ok : Bool),
      jPath config ["notifications", "ntfy", "enabled"] = some (J.b false) →
      send_ntfy_notification types config ok = .ok ([], false)) ∧
    (∀ (pid sid uk tok topic tomorrow : String) (force : Bool) (wd : Nat)
      (events : List (String × List String)) (poOk ntOk : Bool),
      pid ≠ "" → sid ≠ "" → uk ≠ "" → tok ≠ "" → (force = true ∨ wd = 6) →
      (events.filter (fun e => e.1 = tomorrow)).length = 1 →
      ((run_normal (some (mkConfig pid sid true uk tok false topic)) force wd tomorrow
          ⟨some (payloadJ events), poOk, ntOk⟩).1.countP (fun r => isPushoverPost r) = 1 ∧
       (run_normal (some (mkConfig pid sid true uk tok false topic)) force wd tomorrow
          ⟨some (payloadJ events), poOk, ntOk⟩).1.countP (fun r => isNtfyPost r) = 0)) := by
  refine ⟨?_, ?_, ?_⟩
  · intro types config ok h
    obtain ⟨fs, nfs, pfs, hc, h1, h2, h3⟩ := jPath_three _ _ _ _ _ h
    subst hc
    simp [send_pushover_notification, dictGet, h1, h2, h3, jTruthyV]
  · intro types config ok h
    obtain ⟨fs, nfs, pfs, hc, h1, h2, h3⟩ := jPath_three _ _ _ _ _ h
    subst hc
    simp [send_ntfy_notification, dictGet, h1, h2, h3, jTruthyV]
  · intro pid sid uk tok topic tomorrow force wd events poOk ntOk
      hpid hsid huk htok hgate hone
    have hr := run_normal_eval pid sid uk tok topic true false force wd tomorrow events
      poOk ntOk hpid hsid (fun _ => ⟨huk, htok⟩) (fun hfalse => by simp at hfalse)
      (Or.inl rfl) hgate
    rw [hr]
    constructor
    · simp [List.countP_append, List.countP_cons, isPushoverPost, isNtfyPost]
    · simp [List.countP_append, List.countP_cons, isPushoverPost, isNtfyPost]

/-- C3 witness: concrete instances of all three conjuncts, including a run
with exactly one matching event issuing one Pushover POST and no ntfy
request. -/
theorem pushover_only_run_and_disabled_noop_witness :
    send_pushover_notification [J.s "Garbage"] (mkConfig "P" "1" false "u" "t" true "top") true
      = .ok ([], false) ∧
    send_ntfy_notification [J.s "Garbage"] (mkConfig "P" "1" true "u" "t" false "top") true
      = .ok ([], false) ∧
    ((run_normal (some (mkConfig "P" "1" true "u" "t" false "top")) true 0 "2025-06-10"
        ⟨some (payloadJ [("2025-06-10", ["Garbage"])]), true, true⟩).1.countP
          (fun r => isPushoverPost r) = 1 ∧
     (run_normal (some (mkConfig "P" "1" true "u" "t" false "top")) true 0 "2025-06-10"
        ⟨some (payloadJ [("2025-06-10", ["Garbage"])]), true, true⟩).1.countP
          (fun r => isNtfyPost r) = 0) := by
  obtain ⟨h1, h2, h3⟩ := pushover_only_run_and_disabled_noop
  exact ⟨h1 [J.s "Garbage"] (mkConfig "P" "1" false "u" "t" true "top") true rfl,
         h2 [J.s "Garbage"] (mkConfig "P" "1" true "u" "t" false "top") true rfl,
         h3 "P" "1" "u" "t" "top" "2025-06-10" true 0 [("2025-06-10", ["Garbage"])]
           true true (by decide) (by decide) (by decide) (by decide) (Or.inl rfl) (by decide)⟩

/-- C6: network and API errors are recovered locally: a failed calendar
request makes `get_collection_data` return no data rather than raise; a
Pushover transport failure still lets the ntfy dispatcher run (its POST is
issued) with exit code 0; and a run whose fetch failed stops after the one
calendar request with exit code 0. -/
theorem network_errors_recovered :
    (∀ (pid sid uk tok topic : String) (poE ntE : Bool),
      get_collection_data (mkConfig pid sid poE uk tok ntE topic) none
        = .ok ([Request.calendarGet (some (J.s pid)) (some (J.s sid))], none)) ∧
    (∀ (pid sid uk tok topic tomorrow : String) (force : Bool) (wd : Nat)
      (events : List (String × List String)) (ntOk : Bool),
      pid ≠ "" → sid ≠ "" → uk ≠ "" → tok ≠ "" → topic ≠ "" → (force = true ∨ wd = 6) →
      ((run_normal (some (mkConfig pid sid true uk tok true topic)) force wd tomorrow
          ⟨some (payloadJ events), false, ntOk⟩).1.countP (fun r => isNtfyPost r) = 1 ∧
       (run_normal (some (mkConfig pid sid true uk tok true topic)) force wd tomorrow
          ⟨some (payloadJ events), false, ntOk⟩).2 = 0)) ∧
    (∀ (pid sid uk tok topic tomorrow : String) (force : Bool) (wd : Nat)
      (poOk ntOk : Bool),
      pid ≠ "" → sid ≠ "" → uk ≠ "" → tok ≠ "" → topic ≠ "" → (force = true ∨ wd = 6) →
      run_normal (some (mkConfig pid sid true uk tok true topic)) force wd tomorrow
        ⟨none, poOk, ntOk⟩
        = ([Request.calendarGet (some (J.s pid)) (some (J.s sid))], 0)) := by
  refine ⟨fun pid sid uk tok topic poE ntE => rfl, ?_, ?_⟩
  · intro pid sid uk tok topic tomorrow force wd events ntOk
      hpid hsid huk htok htp hgate
    have hr := run_normal_eval pid sid uk tok topic true true force wd tomorrow events
      false ntOk hpid hsid (fun _ => ⟨huk, htok⟩) (fun _ => htp) (Or.inl rfl) hgate
    rw [hr]
    constructor
    · simp [List.countP_append, List.countP_cons, isNtfyPost]
    · rfl
  · intro pid sid uk tok topic tomorrow force wd poOk ntOk
      hpid hsid huk htok htp hgate
    have hgateF : (!force && decide (wd ≠ 6)) = false := by
      rcases hgate with h | h
      · rw [h]; rfl
      · rw [h]; simp
    have hfetch : get_collection_data (mkConfig pid sid true uk tok true topic) none
        = .ok ([Request.calendarGet (some (J.s pid)) (some (J.s sid))], none) := rfl
    simp only [run_normal,
      load_config_mkConfig pid sid uk tok topic true true hpid hsid
        (fun _ => ⟨huk, htok⟩) (fun _ => htp) (Or.inl rfl),
      validate_mkConfig pid sid uk tok topic true true
        (fun _ => ⟨huk, htok⟩) (fun _ => htp),
      hgateF, hfetch]
    simp [jTruthyOpt]

/-- C6 witness: concrete instances of all three conjuncts. -/
theorem network_errors_recovered_witness :
    get_collection_data (mkConfig "P" "1" true "u" "t" true "top") none
      = .ok ([Request.calendarGet (some (J.s "P")) (some (J.s "1"))], none) ∧
    ((run_normal (some (mkConfig "P" "1" true "u" "t" true "top")) true 0 "2025-06-10"
        ⟨some (payloadJ [("2025-06-10", ["Garbage"])]), false, true⟩).1.countP
          (fun r => isNtfyPost r) = 1 ∧
     (run_normal (some (mkConfig "P" "1" true "u" "t" true "top")) true 0 "2025-06-10"
        ⟨some (payloadJ [("2025-06-10", ["Garbage"])]), false, true⟩).2 = 0) ∧
    run_normal (some (mkConfig "P" "1" true "u" "t" true "top")) true 0 "2025-06-10"
        ⟨none, true, true⟩
      = ([Request.calendarGet (some (J.s "P")) (some (J.s "1"))], 0) := by
  obtain ⟨h1, h2, h3⟩ := network_errors_recovered
  exact ⟨h1 "P" "1" "u" "t" "top" true true,
         h2 "P" "1" "u" "t" "top" "2025-06-10" true 0 [("2025-06-10", ["Garbage"])] true
           (by decide) (by decide) (by decide) (by decide) (by decide) (Or.inl rfl),
         h3 "P" "1" "u" "t" "top" "2025-06-10" true 0 true true
           (by decide) (by decide) (by decide) (by decide) (by decide) (Or.inl rfl)⟩
